import Mathlib

/-!
Verification of the crop-recommendation pipeline in `app.py`.

The script loads two pickled artifacts (a classifier and a label encoder),
renders seven `st.number_input` widgets, and on form submission checks
`all([N, P, K, temperature, humidity, ph, rainfall])`, builds the input
vector, calls `model.predict`, resolves the class index via
`le.inverse_transform`, and displays the crop name; all exceptions in that
block are caught and shown via `st.error`.  Numbers are modelled as `ℚ`,
exceptions as `Except String`.
-/

/-- A pre-trained classifier: an opaque mapping from the 7-element numeric
input row to a class index (`model.predict(input_data)[0]`); it may raise
during inference, modelled by `Except String`. -/
structure Classifier where
  predict : List ℚ → Except String ℕ

/-- A label encoder: `le.inverse_transform([i])[0]` resolves a class index to
a crop-name string, raising (for example on an out-of-range index), modelled
by `Except String`; `classes` is its label set (`le.classes_`). -/
structure LabelEncoder where
  inverse_transform : ℕ → Except String String
  classes : List String

/-- One `st.number_input(label, min_value, max_value, value, ...)` widget as
configured in `app.py` lines 92-118: its minimum, maximum and default value
(the step and help text play no role in the data flow). -/
structure NumberInput where
  min_value : ℚ
  max_value : ℚ
  value : ℚ

/-- Modelled framework semantics of `st.number_input`: the widget never
yields a value outside `[min_value, max_value]` — the frontend confines the
entered value to the declared range (out-of-range entries are clamped to the
nearer bound; the step buttons stop at the bounds). -/
def NumberInput.valueOf (w : NumberInput) (raw : ℚ) : ℚ :=
  max w.min_value (min w.max_value raw)

/-- `N = st.number_input("", 0, 140, 50, ...)` (app.py line 92). -/
def n_input : NumberInput := ⟨0, 140, 50⟩

/-- `P = st.number_input("", 5, 145, 50, ...)` (app.py line 96). -/
def p_input : NumberInput := ⟨5, 145, 50⟩

/-- `K = st.number_input("", 5, 205, 50, ...)` (app.py line 100). -/
def k_input : NumberInput := ⟨5, 205, 50⟩

/-- `ph = st.number_input("", 3.0, 10.0, 6.5, 0.1, ...)` (app.py line 104). -/
def ph_input : NumberInput := ⟨3, 10, mkRat 13 2⟩

/-- `temperature = st.number_input("", 0.0, 50.0, 25.0, 0.1, ...)` (app.py line 109). -/
def temp_input : NumberInput := ⟨0, 50, 25⟩

/-- `humidity = st.number_input("", 10.0, 100.0, 70.0, 0.1, ...)` (app.py line 113). -/
def humidity_input : NumberInput := ⟨10, 100, 70⟩

/-- `rainfall = st.number_input("", 0.0, 300.0, 100.0, 1.0, ...)` (app.py line 117). -/
def rainfall_input : NumberInput := ⟨0, 300, 100⟩

/-- Python truthiness of a number: `bool(x)` is true iff `x != 0`
(also for floats: `bool(0.0)` is `False`). -/
def truthy (x : ℚ) : Bool := decide (x ≠ 0)

/-- `all([...])` over a list of numbers: true iff every element is truthy. -/
def truthyAll (xs : List ℚ) : Bool := xs.all truthy

/-- `input_data = np.array([[N, P, K, temperature, humidity, ph, rainfall]])`
(app.py line 132): the ordered 7-element row fed to the classifier. -/
def inputVector (N P K temperature humidity ph rainfall : ℚ) : List ℚ :=
  [N, P, K, temperature, humidity, ph, rainfall]

/-- Outcome of one form submission as rendered to the user. -/
inductive Outcome where
  /-- `st.warning("⚠️ Please fill in all fields")` followed by `st.stop()`. -/
  | fillWarning (msg : String)
  /-- The success box showing the recommended crop name. -/
  | success (crop_name : String)
  /-- `st.error(f"❌ Error making prediction: {e}")` from the `except` branch. -/
  | predictionError (msg : String)
deriving Repr, DecidableEq

/-- The result of running the submission handler: the rendered outcome, and
the row `model.predict` was invoked on, if execution reached that call. -/
structure Trace where
  outcome : Outcome
  predictedOn : Option (List ℚ)
deriving Repr, DecidableEq

/-- The form-submission handler, app.py lines 124-171: validate via
`all([N, P, K, temperature, humidity, ph, rainfall])` (warn and stop when
false), otherwise build `input_data`, call `model.predict`, resolve the index
with `le.inverse_transform`, and display the crop name; every exception in
the `try` block becomes the `st.error` message. -/
def handleSubmission (model : Classifier) (le : LabelEncoder)
    (N P K temperature humidity ph rainfall : ℚ) : Trace :=
  if !truthyAll (inputVector N P K temperature humidity ph rainfall) then
    ⟨Outcome.fillWarning "⚠️ Please fill in all fields", none⟩
  else
    match model.predict (inputVector N P K temperature humidity ph rainfall) with
    | Except.error e =>
        ⟨Outcome.predictionError ("❌ Error making prediction: " ++ e),
          some (inputVector N P K temperature humidity ph rainfall)⟩
    | Except.ok prediction =>
        match le.inverse_transform prediction with
        | Except.error e =>
            ⟨Outcome.predictionError ("❌ Error making prediction: " ++ e),
              some (inputVector N P K temperature humidity ph rainfall)⟩
        | Except.ok crop_name =>
            ⟨Outcome.success crop_name, some (inputVector N P K temperature humidity ph rainfall)⟩

/-- Result of `load_model()` (app.py lines 16-28): either both artifacts, or
the `st.error` message followed by `st.stop()`, which halts the script run. -/
inductive LoadResult where
  | ok (model : Classifier) (le : LabelEncoder)
  | halted (errorShown : String)

/-- `load_model()`: unpickling of the two artifact files is modelled by the
`readArtifacts` argument; any exception while opening or deserialising either
file lands in the `except` branch, which shows the error and stops. -/
def load_model (readArtifacts : Except String (Classifier × LabelEncoder)) : LoadResult :=
  match readArtifacts with
  | Except.ok pair => LoadResult.ok pair.1 pair.2
  | Except.error e => LoadResult.halted ("Error loading model files: " ++ e)

/-- One script run: either the process halts at `load_model` before any form
is served, or the submission handler runs with the loaded artifacts. -/
inductive AppResult where
  | haltedAtLoad (errorShown : String)
  | served (t : Trace)
deriving Repr

/-- The whole script on one submission: `model, le = load_model()` at the
top, then the handler (app.py lines 28 and 124-171). -/
def runApp (readArtifacts : Except String (Classifier × LabelEncoder))
    (N P K temperature humidity ph rainfall : ℚ) : AppResult :=
  match load_model readArtifacts with
  | LoadResult.halted e => AppResult.haltedAtLoad e
  | LoadResult.ok m le => AppResult.served (handleSubmission m le N P K temperature humidity ph rainfall)

/-- Outcome of the image-lookup block (app.py lines 143-152). -/
inductive ImageOutcome where
  /-- `st.image(image, caption=crop_name, ...)`. -/
  | shown (path caption : String)
  /-- `st.info(f"ℹ️ No preview available for {crop_name}")`. -/
  | noPreview (msg : String)
  /-- `st.warning(f"Couldn't load crop image: {e}")`. -/
  | loadWarning (msg : String)
deriving Repr, DecidableEq

/-- The image-lookup block: build
`image_path = f"crop_images/{crop_name.lower()}.jpg"`, show the image when
the file exists (any `Image.open` failure becomes the warning), otherwise
show the informational no-preview message.  The filesystem is modelled by
`fileExists`, image decoding by `openImage`. -/
def showCropImage (fileExists : String → Bool)
    (openImage : String → Except String Unit) (crop_name : String) : ImageOutcome :=
  let image_path := "crop_images/" ++ crop_name.toLower ++ ".jpg"
  if fileExists image_path then
    match openImage image_path with
    | Except.ok _ => ImageOutcome.shown image_path crop_name
    | Except.error e => ImageOutcome.loadWarning ("Couldn't load crop image: " ++ e)
  else
    ImageOutcome.noPreview ("ℹ️ No preview available for " ++ crop_name)

/-- Whether a sample lies within the section-6 bounds, exactly the widget
ranges declared in app.py lines 92-118. -/
def sampleInBounds (N P K temperature humidity ph rainfall : ℚ) : Prop :=
  0 ≤ N ∧ N ≤ 140 ∧ 5 ≤ P ∧ P ≤ 145 ∧ 5 ≤ K ∧ K ≤ 205 ∧
  0 ≤ temperature ∧ temperature ≤ 50 ∧ 10 ≤ humidity ∧ humidity ≤ 100 ∧
  3 ≤ ph ∧ ph ≤ 10 ∧ 0 ≤ rainfall ∧ rainfall ≤ 300

instance (N P K t h ph r : ℚ) : Decidable (sampleInBounds N P K t h ph r) := by
  unfold sampleInBounds; infer_instance

/-- A concrete consistent classifier for evaluating the pipeline: always
predicts class index 0. -/
def demoModel : Classifier := ⟨fun _ => Except.ok 0⟩

/-- A concrete label encoder consistent with `demoModel`: index 0 resolves to
"rice", anything else raises as sklearn does on unseen labels. -/
def demoLE : LabelEncoder :=
  ⟨fun i => if i = 0 then Except.ok "rice"
            else Except.error "y contains previously unseen labels", ["rice"]⟩

/-- A classifier that raises during inference, for exercising the `except`
branch. -/
def raisingModel : Classifier := ⟨fun _ => Except.error "boom"⟩

/-- A classifier that predicts class index 5, an index `demoLE`-sized
encoders have no entry for. -/
def okModel5 : Classifier := ⟨fun _ => Except.ok 5⟩

/-- A label encoder whose reverse mapping fails on every index, for
exercising the unknown-class path. -/
def gapLE : LabelEncoder := ⟨fun _ => Except.error "boom", ["rice"]⟩

/-- Whatever the handler passes to `model.predict` is exactly the
`input_data` row it built. -/
theorem handleSubmission_predictedOn (model : Classifier) (le : LabelEncoder)
    (N P K temperature humidity ph rainfall : ℚ) (v : List ℚ)
    (hcall : (handleSubmission model le N P K temperature humidity ph rainfall).predictedOn = some v) :
    v = inputVector N P K temperature humidity ph rainfall := by
  unfold handleSubmission at hcall
  split at hcall
  · simp at hcall
  · split at hcall
    · simp at hcall
      exact hcall.symm
    · split at hcall <;> simp at hcall <;> exact hcall.symm

/-- The widget value always lies within the widget's declared range. -/
theorem NumberInput.valueOf_mem (w : NumberInput) (hw : w.min_value ≤ w.max_value)
    (raw : ℚ) : w.min_value ≤ w.valueOf raw ∧ w.valueOf raw ≤ w.max_value :=
  ⟨le_max_left _ _, max_le hw (min_le_left _ _)⟩

/-- C1: for every submitted sample (passing the truthiness gate), the input
to the classifier is the ordered row `[N, P, K, temperature, humidity, ph,
rainfall]` in exactly that field order, `model.predict` yields one class
index, and the displayed crop name is the label encoder's reverse mapping of
that index. -/
theorem c1_pipeline_order (model : Classifier) (le : LabelEncoder)
    (N P K temperature humidity ph rainfall : ℚ) (i : ℕ) (crop : String)
    (htruthy : truthyAll (inputVector N P K temperature humidity ph rainfall) = true)
    (hpred : model.predict [N, P, K, temperature, humidity, ph, rainfall] = Except.ok i)
    (hres : le.inverse_transform i = Except.ok crop) :
    handleSubmission model le N P K temperature humidity ph rainfall =
      ⟨Outcome.success crop, some [N, P, K, temperature, humidity, ph, rainfall]⟩ := by
  unfold handleSubmission
  rw [if_neg (by simp [htruthy])]
  simp [hpred, hres, inputVector]

/-- C1 witness at scenario-1 style values. -/
theorem c1_pipeline_order_witness :
    truthyAll (inputVector 90 42 43 21 82 7 203) = true ∧
    demoModel.predict [90, 42, 43, 21, 82, 7, 203] = Except.ok 0 ∧
    demoLE.inverse_transform 0 = Except.ok "rice" ∧
    handleSubmission demoModel demoLE 90 42 43 21 82 7 203 =
      ⟨Outcome.success "rice", some [90, 42, 43, 21, 82, 7, 203]⟩ :=
  ⟨by decide, rfl, rfl,
    c1_pipeline_order demoModel demoLE 90 42 43 21 82 7 203 0 "rice" (by decide) rfl rfl⟩

/-- C2: the in-bounds sample with N = 0 (every field within its section-6
range, the artifacts a consistent pair) is rejected by the truthiness gate
with the fill-in warning and never predicted on, while the same sample with
N = 1 is served a crop name from the encoder's label set: the code diverges
from the claim at any in-bounds sample containing a zero field. -/
theorem c2_zero_field_rejected :
    sampleInBounds 0 50 50 25 70 (mkRat 13 2) 100 ∧
    handleSubmission demoModel demoLE 0 50 50 25 70 (mkRat 13 2) 100 =
      ⟨Outcome.fillWarning "⚠️ Please fill in all fields", none⟩ ∧
    handleSubmission demoModel demoLE 1 50 50 25 70 (mkRat 13 2) 100 =
      ⟨Outcome.success "rice", some [1, 50, 50, 25, 70, mkRat 13 2, 100]⟩ ∧
    "rice" ∈ demoLE.classes :=
  ⟨by decide, by decide, by decide, by decide⟩

/-- C4: any submitted sample with every field inside its declared bound but
at least one field equal to zero fails the `all([...])` truthiness check, is
rejected with the fill-in warning, and execution stops before the classifier
is invoked. -/
theorem c4_zero_field_warning (model : Classifier) (le : LabelEncoder)
    (N P K temperature humidity ph rainfall : ℚ)
    (hb : sampleInBounds N P K temperature humidity ph rainfall)
    (hz : N = 0 ∨ P = 0 ∨ K = 0 ∨ temperature = 0 ∨ humidity = 0 ∨ ph = 0 ∨ rainfall = 0) :
    handleSubmission model le N P K temperature humidity ph rainfall =
      ⟨Outcome.fillWarning "⚠️ Please fill in all fields", none⟩ := by
  unfold handleSubmission
  rw [if_pos]
  have : truthyAll (inputVector N P K temperature humidity ph rainfall) = false := by
    rcases hz with h | h | h | h | h | h | h <;> subst h <;>
      simp [truthyAll, inputVector, truthy]
  simp [this]

/-- C4 witness: N = 0 with the other fields at their defaults. -/
theorem c4_zero_field_warning_witness :
    sampleInBounds 0 50 50 25 70 7 100 ∧ (0 : ℚ) = 0 ∧
    handleSubmission demoModel demoLE 0 50 50 25 70 7 100 =
      ⟨Outcome.fillWarning "⚠️ Please fill in all fields", none⟩ :=
  ⟨by decide, rfl,
    c4_zero_field_warning demoModel demoLE 0 50 50 25 70 7 100 (by decide) (Or.inl rfl)⟩

/-- C5: when reading or unpickling either artifact file fails, the script
halts at `load_model` with the load-error message and the submission handler
never runs, so no prediction is made. -/
theorem c5_load_failure_halts (e : String) (N P K temperature humidity ph rainfall : ℚ) :
    runApp (Except.error e) N P K temperature humidity ph rainfall =
      AppResult.haltedAtLoad ("Error loading model files: " ++ e) := rfl

/-- C7: the handler is deterministic: two invocations with identical field
values and the same loaded classifier and encoder display the identical crop
name. -/
theorem c7_deterministic (model : Classifier) (le : LabelEncoder)
    (N P K temperature humidity ph rainfall : ℚ) (c₁ c₂ : String)
    (h₁ : (handleSubmission model le N P K temperature humidity ph rainfall).outcome =
      Outcome.success c₁)
    (h₂ : (handleSubmission model le N P K temperature humidity ph rainfall).outcome =
      Outcome.success c₂) :
    c₁ = c₂ := by
  rw [h₁] at h₂
  injection h₂

/-- C7 witness: the same submission twice yields "rice" both times. -/
theorem c7_deterministic_witness :
    (handleSubmission demoModel demoLE 90 42 43 21 82 7 203).outcome = Outcome.success "rice" ∧
    ("rice" : String) = "rice" :=
  ⟨by decide, c7_deterministic demoModel demoLE 90 42 43 21 82 7 203 "rice" "rice"
    (by decide) (by decide)⟩

/-- C3 counterexample: the handler contains no range validation.  Fed the
out-of-bounds sample with ph = 11.0 (everything else at its default), it does
not fail with any validation error naming the field: it invokes the
classifier on that very vector and displays a recommendation. -/
theorem c3_counterexample :
    ¬ sampleInBounds 50 50 50 25 70 11 100 ∧
    handleSubmission demoModel demoLE 50 50 50 25 70 11 100 =
      ⟨Outcome.success "rice", some [50, 50, 50, 25, 70, 11, 100]⟩ :=
  ⟨by decide, by decide⟩

/-- C3 amended: out-of-range values are kept away from the classifier by the
widgets, not by the handler: when the seven field values come from the seven
`st.number_input` controls, any row the handler passes to `model.predict` is
the ordered input row and lies within the section-6 bounds. -/
theorem c3_widgets_confine_classifier_input (model : Classifier) (le : LabelEncoder)
    (rawN rawP rawK rawT rawH rawPh rawR : ℚ) (v : List ℚ)
    (hcall : (handleSubmission model le (n_input.valueOf rawN) (p_input.valueOf rawP)
        (k_input.valueOf rawK) (temp_input.valueOf rawT) (humidity_input.valueOf rawH)
        (ph_input.valueOf rawPh) (rainfall_input.valueOf rawR)).predictedOn = some v) :
    v = inputVector (n_input.valueOf rawN) (p_input.valueOf rawP) (k_input.valueOf rawK)
        (temp_input.valueOf rawT) (humidity_input.valueOf rawH) (ph_input.valueOf rawPh)
        (rainfall_input.valueOf rawR) ∧
    sampleInBounds (n_input.valueOf rawN) (p_input.valueOf rawP) (k_input.valueOf rawK)
        (temp_input.valueOf rawT) (humidity_input.valueOf rawH) (ph_input.valueOf rawPh)
        (rainfall_input.valueOf rawR) := by
  refine ⟨handleSubmission_predictedOn _ _ _ _ _ _ _ _ _ _ hcall, ?_⟩
  have hN := NumberInput.valueOf_mem n_input (by norm_num [n_input]) rawN
  have hP := NumberInput.valueOf_mem p_input (by norm_num [p_input]) rawP
  have hK := NumberInput.valueOf_mem k_input (by norm_num [k_input]) rawK
  have hT := NumberInput.valueOf_mem temp_input (by norm_num [temp_input]) rawT
  have hH := NumberInput.valueOf_mem humidity_input (by norm_num [humidity_input]) rawH
  have hPh := NumberInput.valueOf_mem ph_input (by norm_num [ph_input]) rawPh
  have hR := NumberInput.valueOf_mem rainfall_input (by norm_num [rainfall_input]) rawR
  exact ⟨hN.1, hN.2, hP.1, hP.2, hK.1, hK.2, hT.1, hT.2, hH.1, hH.2, hPh.1, hPh.2, hR.1, hR.2⟩

/-- C3 amended witness: raw entries ph = 2 and rainfall = 999 reach the
classifier only as the clamped in-bounds values 3 and 300. -/
theorem c3_widgets_confine_classifier_input_witness :
    (handleSubmission demoModel demoLE (n_input.valueOf 90) (p_input.valueOf 42)
      (k_input.valueOf 43) (temp_input.valueOf 21) (humidity_input.valueOf 82)
      (ph_input.valueOf 2) (rainfall_input.valueOf 999)).predictedOn =
        some [90, 42, 43, 21, 82, 3, 300] ∧
    sampleInBounds (n_input.valueOf 90) (p_input.valueOf 42) (k_input.valueOf 43)
      (temp_input.valueOf 21) (humidity_input.valueOf 82) (ph_input.valueOf 2)
      (rainfall_input.valueOf 999) :=
  ⟨by decide,
    (c3_widgets_confine_classifier_input demoModel demoLE 90 42 43 21 82 2 999
      [90, 42, 43, 21, 82, 3, 300] (by decide)).2⟩

/-- C6: every recoverable failure inside the prediction block — the
classifier raising during inference, or the encoder failing to resolve the
index — is caught by the `except` branch and rendered as the user-visible
error message; it never escapes the handler. -/
theorem c6_errors_caught (model : Classifier) (le : LabelEncoder)
    (N P K temperature humidity ph rainfall : ℚ) (e : String)
    (htruthy : truthyAll (inputVector N P K temperature humidity ph rainfall) = true)
    (hfail : model.predict (inputVector N P K temperature humidity ph rainfall) =
        Except.error e ∨
      ∃ i, model.predict (inputVector N P K temperature humidity ph rainfall) =
        Except.ok i ∧ le.inverse_transform i = Except.error e) :
    (handleSubmission model le N P K temperature humidity ph rainfall).outcome =
      Outcome.predictionError ("❌ Error making prediction: " ++ e) := by
  unfold handleSubmission
  rw [if_neg (by simp [htruthy])]
  rcases hfail with h | ⟨i, h1, h2⟩
  · simp [h]
  · simp [h1, h2]

/-- C6 witness: a classifier raising "boom" is reported as the error
message. -/
theorem c6_errors_caught_witness :
    truthyAll (inputVector 90 42 43 21 82 7 203) = true ∧
    raisingModel.predict (inputVector 90 42 43 21 82 7 203) = Except.error "boom" ∧
    (handleSubmission raisingModel demoLE 90 42 43 21 82 7 203).outcome =
      Outcome.predictionError "❌ Error making prediction: boom" :=
  ⟨by decide, rfl,
    c6_errors_caught raisingModel demoLE 90 42 43 21 82 7 203 "boom" (by decide) (Or.inl rfl)⟩

/-- C8 counterexample: the classifier raising during inference and the
encoder lacking the predicted index produce the very same generic outcome —
the single `except` branch's message — so the two failure modes are not
distinguished by distinct error kinds. -/
theorem c8_counterexample :
    (handleSubmission raisingModel demoLE 90 42 43 21 82 7 203).outcome =
      Outcome.predictionError "❌ Error making prediction: boom" ∧
    (handleSubmission okModel5 gapLE 90 42 43 21 82 7 203).outcome =
      Outcome.predictionError "❌ Error making prediction: boom" ∧
    (handleSubmission raisingModel demoLE 90 42 43 21 82 7 203).outcome =
      (handleSubmission okModel5 gapLE 90 42 43 21 82 7 203).outcome :=
  ⟨by decide, by decide, by decide⟩

/-- C8 amended: both failure modes funnel into the one generic `except`
branch: a classifier that raises and an encoder that cannot resolve the
predicted index yield the identical user-visible outcome whenever the
underlying exception text coincides; there is no distinct unknown-class
error and no separate defensive membership check. -/
theorem c8_single_generic_handler (m₁ m₂ : Classifier) (le₁ le₂ : LabelEncoder)
    (N P K temperature humidity ph rainfall : ℚ) (e : String) (i : ℕ)
    (htruthy : truthyAll (inputVector N P K temperature humidity ph rainfall) = true)
    (h₁ : m₁.predict (inputVector N P K temperature humidity ph rainfall) = Except.error e)
    (h₂ : m₂.predict (inputVector N P K temperature humidity ph rainfall) = Except.ok i)
    (h₃ : le₂.inverse_transform i = Except.error e) :
    (handleSubmission m₁ le₁ N P K temperature humidity ph rainfall).outcome =
      (handleSubmission m₂ le₂ N P K temperature humidity ph rainfall).outcome := by
  unfold handleSubmission
  rw [if_neg (by simp [htruthy]), if_neg (by simp [htruthy])]
  simp [h₁, h₂, h₃]

/-- C8 amended witness: the two concrete failure modes give the identical
outcome. -/
theorem c8_single_generic_handler_witness :
    truthyAll (inputVector 90 42 43 21 82 7 203) = true ∧
    raisingModel.predict (inputVector 90 42 43 21 82 7 203) = Except.error "boom" ∧
    okModel5.predict (inputVector 90 42 43 21 82 7 203) = Except.ok 5 ∧
    gapLE.inverse_transform 5 = Except.error "boom" ∧
    (handleSubmission raisingModel demoLE 90 42 43 21 82 7 203).outcome =
      (handleSubmission okModel5 gapLE 90 42 43 21 82 7 203).outcome :=
  ⟨by decide, rfl, rfl, rfl,
    c8_single_generic_handler raisingModel okModel5 demoLE gapLE 90 42 43 21 82 7 203
      "boom" 5 (by decide) rfl rfl rfl⟩

/-- C9: the image is looked up at the conventional path keyed by the
lowercased crop name, and when no file exists there the block does not fail:
it shows the informational no-preview message. -/
theorem c9_missing_image_noPreview (fileExists : String → Bool)
    (openImage : String → Except String Unit) (crop_name : String)
    (habsent : fileExists ("crop_images/" ++ crop_name.toLower ++ ".jpg") = false) :
    showCropImage fileExists openImage crop_name =
      ImageOutcome.noPreview ("ℹ️ No preview available for " ++ crop_name) := by
  unfold showCropImage
  simp [habsent]

/-- C9 witness: scenario 4, crop name "rice" with no asset on disk. -/
theorem c9_missing_image_noPreview_witness :
    ((fun _ => false) : String → Bool) ("crop_images/" ++ "rice".toLower ++ ".jpg") = false ∧
    showCropImage (fun _ => false) (fun _ => Except.ok ()) "rice" =
      ImageOutcome.noPreview "ℹ️ No preview available for rice" :=
  ⟨rfl, c9_missing_image_noPreview (fun _ => false) (fun _ => Except.ok ()) "rice" rfl⟩

/-- C10: each of the seven `st.number_input` controls carries exactly the
minimum, maximum and default of the section-6 table, and every value a
widget can hand the pipeline lies within its declared range. -/
theorem c10_widget_bounds (rawN rawP rawK rawT rawH rawPh rawR : ℚ) :
    (n_input.min_value = 0 ∧ n_input.max_value = 140 ∧ n_input.value = 50) ∧
    (p_input.min_value = 5 ∧ p_input.max_value = 145 ∧ p_input.value = 50) ∧
    (k_input.min_value = 5 ∧ k_input.max_value = 205 ∧ k_input.value = 50) ∧
    (ph_input.min_value = 3 ∧ ph_input.max_value = 10 ∧ ph_input.value = 6.5) ∧
    (temp_input.min_value = 0 ∧ temp_input.max_value = 50 ∧ temp_input.value = 25) ∧
    (humidity_input.min_value = 10 ∧ humidity_input.max_value = 100 ∧
      humidity_input.value = 70) ∧
    (rainfall_input.min_value = 0 ∧ rainfall_input.max_value = 300 ∧
      rainfall_input.value = 100) ∧
    sampleInBounds (n_input.valueOf rawN) (p_input.valueOf rawP) (k_input.valueOf rawK)
      (temp_input.valueOf rawT) (humidity_input.valueOf rawH) (ph_input.valueOf rawPh)
      (rainfall_input.valueOf rawR) := by
  refine ⟨⟨rfl, rfl, rfl⟩, ⟨rfl, rfl, rfl⟩, ⟨rfl, rfl, rfl⟩,
    ⟨rfl, rfl, ?_⟩, ⟨rfl, rfl, rfl⟩, ⟨rfl, rfl, rfl⟩, ⟨rfl, rfl, rfl⟩, ?_⟩
  · show mkRat 13 2 = (6.5 : ℚ)
    norm_num [Rat.mkRat_eq_div]
  · have hN := NumberInput.valueOf_mem n_input (by norm_num [n_input]) rawN
    have hP := NumberInput.valueOf_mem p_input (by norm_num [p_input]) rawP
    have hK := NumberInput.valueOf_mem k_input (by norm_num [k_input]) rawK
    have hT := NumberInput.valueOf_mem temp_input (by norm_num [temp_input]) rawT
    have hH := NumberInput.valueOf_mem humidity_input (by norm_num [humidity_input]) rawH
    have hPh := NumberInput.valueOf_mem ph_input (by norm_num [ph_input]) rawPh
    have hR := NumberInput.valueOf_mem rainfall_input (by norm_num [rainfall_input]) rawR
    exact ⟨hN.1, hN.2, hP.1, hP.2, hK.1, hK.2, hT.1, hT.2, hH.1, hH.2,
      hPh.1, hPh.2, hR.1, hR.2⟩
